import Mathlib

/-!
Shallow embedding of the futarchy402-mcp payment-gated vote execution
protocol, translated from `src/core/x402.ts` (the direct SPL-transfer
implementation of `executeVote`), `src/core/wallet.ts`
(`getSolanaRpcUrl`), and `src/tools/handlers.ts` (`handleVote`).

External effects (HTTP fetch, key decoding, ledger reads, transaction
submission) are modelled by an explicit environment record `Env` whose
fields may return any value or throw (return `Except.error`), so theorems
quantify over every behaviour of the network, ledger and key decoder.
Thrown JavaScript errors are modelled by their message string; throwing a
value without a message is modelled by the empty string (both are falsy
under `error.message || fallback`).  Base64/JSON wire serialization is
not modelled: the proof payload carries the same data as the serialized
form.  Public keys and derived token accounts are modelled as strings;
`new PublicKey` validation is the environment predicate `pubkeyValid`,
and associated-token-address derivation is the environment function
`ata` (which may throw, e.g. owner-off-curve).
-/

namespace Futarchy

/-- JavaScript truthiness test for an optional string: `undefined` and the
empty string are falsy, every other string is truthy. -/
def jsTruthyStr : Option String → Option String
  | some s => if s = "" then none else some s
  | none => none

/-- ASCII lowercase conversion, modelling `toLowerCase` on the network
identifiers the client compares. -/
def jsToLower (s : String) : String :=
  ⟨s.toList.map Char.toLower⟩

/-- Helper for `jsIncludes`: does `needle` occur as a contiguous run in
the character list? -/
def listIncludesAux (needle : List Char) : List Char → Bool
  | [] => needle.isEmpty
  | c :: rest => needle.isPrefixOf (c :: rest) || listIncludesAux needle rest

/-- JavaScript `hay.includes(needle)` substring test. -/
def jsIncludes (hay needle : String) : Bool :=
  listIncludesAux needle.toList hay.toList

/-- Whitespace trim at both ends of a character list, modelling the
string trimming JavaScript number conversion performs (the exotic
Unicode space characters JavaScript also strips are not modelled). -/
def jsTrim (l : List Char) : List Char :=
  ((l.dropWhile Char.isWhitespace).reverse.dropWhile Char.isWhitespace).reverse

/-- Accumulating decimal-digit evaluator: returns `none` on the first
non-digit character. -/
def decDigitsValAux (acc : Nat) : List Char → Option Nat
  | [] => some acc
  | c :: cs => if c.isDigit then decDigitsValAux (10 * acc + (c.toNat - 48)) cs else none

/-- JavaScript `BigInt(string)` on the decimal fragment of its grammar:
whitespace is trimmed, the empty string is `0n`, an optional sign
followed by decimal digits is evaluated exactly, and anything else throws
a SyntaxError.  Prefixed (`0x`/`0o`/`0b`) literals are not modelled; no
claim exercises them. -/
def jsBigInt (s : String) : Except String Int :=
  let err : Except String Int := .error ("Cannot convert " ++ s ++ " to a BigInt")
  match jsTrim s.toList with
  | [] => .ok 0
  | '+' :: rest =>
    match rest, decDigitsValAux 0 rest with
    | _ :: _, some n => .ok (n : Int)
    | _, _ => err
  | '-' :: rest =>
    match rest, decDigitsValAux 0 rest with
    | _ :: _, some n => .ok (-(n : Int))
    | _, _ => err
  | l =>
    match decDigitsValAux 0 l with
    | some n => .ok (n : Int)
    | none => err

/-- Lexing stage of JavaScript `parseFloat` on sign/digits/decimal-point
strings: trims, takes an optional sign, the integer digits and the
fraction digits, ignores any trailing garbage, and fails (`NaN`) when no
digit was read.  Returns (negative?, integer part, fraction part,
fraction length).  Exponent notation and `Infinity` are not modelled. -/
def jsParseFloatParts (s : String) : Option (Bool × Nat × Nat × Nat) :=
  let l := jsTrim s.toList
  let signed : Bool × List Char :=
    match l with
    | '-' :: r => (true, r)
    | '+' :: r => (false, r)
    | _ => (false, l)
  let intDigits := signed.2.takeWhile Char.isDigit
  let rest := signed.2.dropWhile Char.isDigit
  let fracDigits :=
    match rest with
    | '.' :: r => r.takeWhile Char.isDigit
    | _ => []
  if intDigits = [] ∧ fracDigits = [] then none
  else
    some (signed.1, (decDigitsValAux 0 intDigits).getD 0,
      (decDigitsValAux 0 fracDigits).getD 0, fracDigits.length)

/-- Value of a lexed float: sign times integer part plus scaled fraction
part. -/
def partsToRat : Bool × Nat × Nat × Nat → ℚ
  | (neg, ip, fp, k) =>
    (if neg then (-1 : ℚ) else 1) * ((ip : ℚ) + (fp : ℚ) / ((10 : ℚ) ^ k))

/-- JavaScript `parseFloat`, with IEEE-754 doubles idealized as exact
rationals (exact on every value the handlers exercise: integers below
2^53 and their quotients by 10^6); `NaN` is modelled as `none`. -/
def jsParseFloat (s : String) : Option ℚ :=
  (jsParseFloatParts s).map partsToRat

/-- Open-ended extension map of a payment requirement; the client reads
only `feePayer` from it (`requirement.extra?.feePayer`). -/
structure Extra where
  feePayer : Option String := none
deriving DecidableEq

/-- One entry of the 402 challenge's `accepts` list.  `network`, `asset`
and `extra` are optional because the TypeScript cast is unchecked and the
code defends against their absence (`network?.includes`, `!tokenMint`,
`extra?.feePayer`). -/
structure Requirement where
  scheme : String
  network : Option String := none
  payTo : String
  asset : Option String := none
  maxAmountRequired : String
  extra : Option Extra := none
deriving DecidableEq

/-- Parsed body of a 402 response (`X402Response` in the source); the
`accepts` list is optional because the code checks `!x402Response.accepts`
separately from emptiness. -/
structure X402Response where
  x402Version : Option String := none
  accepts : Option (List Requirement) := none
deriving DecidableEq

/-- Result of the initial unauthenticated vote request: HTTP status,
the body read as stringified JSON (used in the 400 error message), and
the body read as an `X402Response`; either read may itself throw. -/
structure InitResp where
  status : Nat
  bodyText : Except String String := .error ""
  x402 : Except String X402Response := .error ""

/-- Fields the client copies out of a successful proof-submission
response body (the unchecked `VoteResult` cast in the source). -/
structure RawResult where
  vote_id : Option String := none
  transaction_signature : Option String := none
  amount_paid_usdc_base_units : Option String := none
  quoted_amount_usdc_base_units : Option String := none
  actual_slippage : Option ℚ := none
  voter_pubkey : Option String := none
  side : Option String := none
  poll_id : Option String := none
  timestamp : Option String := none
deriving DecidableEq

/-- Result of the proof-submission request: HTTP status, the body read
as stringified JSON (used in the non-409 error message), and the body
parsed as the result fields; either read may throw. -/
structure SubmitResp where
  status : Nat
  bodyText : Except String String := .error ""
  result : Except String RawResult := .error ""

/-- Caller-visible result shape (`VoteResult` in `types.ts`). -/
structure VoteResult where
  success : Bool
  vote_id : Option String := none
  transaction_signature : Option String := none
  amount_paid_usdc_base_units : Option String := none
  quoted_amount_usdc_base_units : Option String := none
  actual_slippage : Option ℚ := none
  voter_pubkey : Option String := none
  side : Option String := none
  poll_id : Option String := none
  timestamp : Option String := none
  error : Option String := none
deriving DecidableEq

/-- Transaction instructions the builder can emit, in the source's
vocabulary: compute-budget settings, associated-token-account creation,
and the checked SPL transfer. -/
inductive Instr where
  | setComputeUnitLimit (units : Nat)
  | setComputeUnitPrice (microLamports : Nat)
  | createATA (payer ata owner mint : String)
  | transferChecked (source mint dest owner : String) (amount : Int) (decimals : Nat)
deriving DecidableEq

/-- Compiled v0 transaction message: fee payer, recent blockhash, and the
instruction list. -/
structure CompiledTx where
  feePayer : String
  recentBlockhash : String
  instructions : List Instr
deriving DecidableEq

/-- Signed transaction: the compiled message plus the list of signer
public identities (`transaction.sign([voterKeypair])`). -/
structure SignedTx where
  tx : CompiledTx
  signers : List String
deriving DecidableEq

/-- X-Payment header payload (`paymentPayload` in the source), carried
unserialized. -/
structure PaymentPayload where
  x402Version : Option String
  scheme : String
  network : Option String
  transaction : SignedTx
deriving DecidableEq

/-- Environment of external effects: every field models one fallible
external call site of `executeVote`. -/
structure Env where
  decodeKey : String → Except String String
  pubkeyValid : String → Bool
  initial : Except String InitResp
  getMint : String → Except String Nat
  ata : String → String → Except String String
  accountExists : String → Except String Bool
  getLatestBlockhash : Except String String
  submit : PaymentPayload → Except String SubmitResp

/-- Caller input of `executeVote` (`VoteParams` in the source); the API
base URL and network default resolution are absorbed into `Env`. -/
structure VoteParams where
  pollId : String
  side : String
  walletPrivateKey : String
  slippage : ℚ := 5 / 100
deriving DecidableEq

/-- Modelled `new PublicKey(s)`: returns the string itself when the
environment accepts it as a valid key, otherwise throws. -/
def parsePubkey (env : Env) (s : String) : Except String String :=
  if env.pubkeyValid s then .ok s else .error ("Invalid public key input: " ++ s)

/-- Translation of `getSolanaRpcUrl` from `wallet.ts`.  The optional
environment-variable overrides only change the returned URL string
(unused downstream) and are not modelled; calling it with an absent
network models the TypeError of `undefined.toLowerCase()`. -/
def getSolanaRpcUrl (network : Option String) : Except String String :=
  match network with
  | none => .error "Cannot read properties of undefined (reading toLowerCase)"
  | some n =>
    let nn := jsToLower n
    if nn = "devnet" ∨ nn = "solana-devnet" then
      .ok "https://api.devnet.solana.com"
    else if nn = "mainnet" ∨ nn = "solana-mainnet" ∨ nn = "mainnet-beta" ∨ nn = "solana" then
      .ok "https://api.mainnet-beta.solana.com"
    else
      .error ("Unsupported network: " ++ n)

/-- Scheme/network recognition from the source: scheme `solana` or
`exact`, or a network containing the substring `solana`. -/
def isSolanaPayment (r : Requirement) : Bool :=
  r.scheme == "solana" || r.scheme == "exact" ||
    (match r.network with
     | some n => jsIncludes n "solana"
     | none => false)

/-- Rendering of `JSON.stringify(requirement)` used inside two error
messages; field order follows the `X402Response` interface, and absent
optional fields are omitted as `JSON.stringify` omits `undefined`. -/
def stringifyRequirement (r : Requirement) : String :=
  "\x7b\"scheme\":\"" ++ r.scheme ++ "\"" ++
    (match r.network with
     | some n => ",\"network\":\"" ++ n ++ "\""
     | none => "") ++
    ",\"payTo\":\"" ++ r.payTo ++ "\"" ++
    (match r.asset with
     | some a => ",\"asset\":\"" ++ a ++ "\""
     | none => "") ++
    ",\"maxAmountRequired\":\"" ++ r.maxAmountRequired ++ "\"" ++
    (match r.extra with
     | some e =>
       ",\"extra\":\x7b" ++
         (match e.feePayer with
          | some f => "\"feePayer\":\"" ++ f ++ "\""
          | none => "") ++ "\x7d"
     | none => "") ++ "\x7d"

/-- Outcome of a successful negotiation: the protocol version tag, the
selected requirement, and its validated token mint address. -/
structure NegotiationOk where
  x402Version : Option String
  requirement : Requirement
  tokenMint : String
deriving DecidableEq

/-- Steps 3 of `executeVote`: parse the 402 challenge body, require a
non-empty `accepts` list, take its first element, validate its scheme and
its token mint (lines 232-254 of the source). -/
def parse402 (resp : InitResp) : Except String NegotiationOk := do
  let x ← resp.x402
  match x.accepts with
  | none => Except.error "No payment methods accepted in x402 response"
  | some [] => Except.error "No payment methods accepted in x402 response"
  | some (requirement :: _) =>
    if isSolanaPayment requirement then
      match jsTruthyStr requirement.asset with
      | none =>
        Except.error ("Missing token mint address in payment requirement: " ++
          stringifyRequirement requirement)
      | some tokenMint =>
        Except.ok { x402Version := x.x402Version, requirement, tokenMint }
    else
      Except.error ("Unsupported payment scheme: " ++ requirement.scheme ++
        ". Full requirement: " ++ stringifyRequirement requirement)

/-- Step 2 of `executeVote`: issue the unauthenticated vote request and
interpret its status code (lines 213-229), then parse the challenge. -/
def negotiate (env : Env) (pollId : String) : Except String NegotiationOk := do
  let resp ← env.initial
  if resp.status ≠ 402 then
    if resp.status = 400 then do
      let d ← resp.bodyText
      Except.error ("Invalid vote request: " ++ d)
    else if resp.status = 403 then
      Except.error "Duplicate vote: You have already voted on this poll"
    else if resp.status = 404 then
      Except.error ("Poll not found: " ++ pollId)
    else
      Except.error ("Expected 402 Payment Required, got " ++ toString resp.status)
  else
    parse402 resp

/-- Steps 4-9 of `executeVote` (lines 256-331): RPC URL resolution, mint
lookup, fee-payer extraction, token-account derivation, the conditional
destination-account creation, the exact-amount transfer, and compilation
against a recent blockhash. -/
def buildTx (env : Env) (voterPubkey : String) (requirement : Requirement)
    (tokenMint : String) : Except String CompiledTx := do
  let _rpcUrl ← getSolanaRpcUrl requirement.network
  let mintPubkey ← parsePubkey env tokenMint
  let mintDecimals ← env.getMint mintPubkey
  match jsTruthyStr (requirement.extra.bind Extra.feePayer) with
  | none => Except.error "Payment requirements do not include a fee payer"
  | some feePayer => do
    let feePayerPubkey ← parsePubkey env feePayer
    let destPubkey ← parsePubkey env requirement.payTo
    let userAta ← env.ata mintPubkey voterPubkey
    let destAta ← env.ata mintPubkey destPubkey
    let destExists ← env.accountExists destAta
    let createInstrs :=
      if destExists then ([] : List Instr)
      else [Instr.createATA feePayerPubkey destAta destPubkey mintPubkey]
    let amount ← jsBigInt requirement.maxAmountRequired
    let blockhash ← env.getLatestBlockhash
    Except.ok
      { feePayer := feePayerPubkey
        recentBlockhash := blockhash
        instructions :=
          [Instr.setComputeUnitLimit 100000, Instr.setComputeUnitPrice 1] ++
            createInstrs ++
            [Instr.transferChecked userAta mintPubkey destAta voterPubkey amount mintDecimals] }

/-- Step 9 of `executeVote`: attach the voter's signature; the message is
unchanged. -/
def signTx (tx : CompiledTx) (voterPubkey : String) : SignedTx :=
  { tx, signers := [voterPubkey] }

/-- Step 10 of `executeVote`: assemble the X-Payment payload from the
challenge's version tag and the selected requirement's scheme/network. -/
def mkPaymentPayload (neg : NegotiationOk) (signed : SignedTx) : PaymentPayload :=
  { x402Version := neg.x402Version
    scheme := neg.requirement.scheme
    network := neg.requirement.network
    transaction := signed }

/-- Step 12 of `executeVote` (lines 368-381): copy the parsed result
fields into a success `VoteResult`. -/
def mkSuccessResult (r : RawResult) : VoteResult :=
  { success := true
    vote_id := r.vote_id
    transaction_signature := r.transaction_signature
    amount_paid_usdc_base_units := r.amount_paid_usdc_base_units
    quoted_amount_usdc_base_units := r.quoted_amount_usdc_base_units
    actual_slippage := r.actual_slippage
    voter_pubkey := r.voter_pubkey
    side := r.side
    poll_id := r.poll_id
    timestamp := r.timestamp
    error := none }

/-- Step 11-12 of `executeVote` (lines 350-381): submit the proof and
interpret the response status: 2xx parses the result body, 409 throws the
slippage message without reading the body, any other status throws with
the body's stringified error detail. -/
def submitAndParse (env : Env) (payload : PaymentPayload) : Except String VoteResult := do
  let resp ← env.submit payload
  if 200 ≤ resp.status ∧ resp.status < 300 then do
    let r ← resp.result
    Except.ok (mkSuccessResult r)
  else if resp.status = 409 then
    Except.error "Slippage exceeded: Entry fee changed too much. Try again with higher slippage."
  else do
    let d ← resp.bodyText
    Except.error ("Vote failed: " ++ d)

/-- Body of `executeVote` inside its try block: the linear pipeline
decode, negotiate, build, sign, submit. -/
def executeVoteE (env : Env) (p : VoteParams) : Except String VoteResult := do
  let voterPubkey ← env.decodeKey p.walletPrivateKey
  let neg ← negotiate env p.pollId
  let tx ← buildTx env voterPubkey neg.requirement neg.tokenMint
  let signed := signTx tx voterPubkey
  submitAndParse env (mkPaymentPayload neg signed)

/-- The catch-all of `executeVote` (lines 382-387): every thrown error is
converted to a failure value, with the generic fallback when the thrown
error has a falsy message. -/
def executeVote (env : Env) (p : VoteParams) : VoteResult :=
  match executeVoteE env p with
  | .ok r => r
  | .error e =>
    { success := false
      error := some (if e = "" then "Unknown error during vote execution" else e) }

/-- Caller arguments of the `handleVote` tool handler, all unchecked at
the JavaScript boundary. -/
structure VoteArgs where
  poll_id : Option String := none
  side : Option String := none
  wallet_private_key : Option String := none
  slippage : Option ℚ := none
deriving DecidableEq

/-- Output shape the `handleVote` tool handler returns on success. -/
structure VoteToolOutput where
  success : Bool
  vote_id : Option String := none
  transaction_signature : Option String := none
  amount_paid_usdc : Option ℚ := none
  quoted_amount_usdc : Option ℚ := none
  actual_slippage_percent : Option ℚ := none
  voter_pubkey : Option String := none
  side : Option String := none
  poll_id : Option String := none
  timestamp : Option String := none
deriving DecidableEq

/-- Success-path normalization of `handleVote` (lines 188-203 of
`handlers.ts`): base-unit amount strings are converted through
`parseFloat(s) / 1_000_000` when truthy, and `actual_slippage` is scaled
to a percentage when truthy (so a present value of 0 yields an absent
percentage, as 0 is falsy). -/
def normalizeVoteSuccess (r : VoteResult) : VoteToolOutput :=
  { success := true
    vote_id := r.vote_id
    transaction_signature := r.transaction_signature
    amount_paid_usdc :=
      match jsTruthyStr r.amount_paid_usdc_base_units with
      | some s => (jsParseFloat s).map (fun q => q / 1000000)
      | none => none
    quoted_amount_usdc :=
      match jsTruthyStr r.quoted_amount_usdc_base_units with
      | some s => (jsParseFloat s).map (fun q => q / 1000000)
      | none => none
    actual_slippage_percent :=
      match r.actual_slippage with
      | some q => if q ≠ 0 then some (q * 100) else none
      | none => none
    voter_pubkey := r.voter_pubkey
    side := r.side
    poll_id := r.poll_id
    timestamp := r.timestamp }

/-- Translation of the `handleVote` tool handler (lines 160-204 of
`handlers.ts`): argument validation, the call into `executeVote`, the
re-raise of failures as exceptions, and the success normalization. -/
def handleVote (env : Env) (args : VoteArgs) : Except String VoteToolOutput :=
  match jsTruthyStr args.poll_id with
  | none => .error "poll_id is required"
  | some pid =>
    match jsTruthyStr args.side with
    | none => .error "side is required"
    | some side =>
      if side ≠ "yes" ∧ side ≠ "no" then
        .error "side must be \"yes\" or \"no\""
      else
        match jsTruthyStr args.wallet_private_key with
        | none => .error "wallet_private_key is required"
        | some key =>
          let r := executeVote env
            { pollId := pid, side := side, walletPrivateKey := key
              slippage := args.slippage.getD (5 / 100) }
          if r.success then
            .ok (normalizeVoteSuccess r)
          else
            .error
              (match jsTruthyStr r.error with
               | some e => e
               | none => "Vote failed")

/-! Shared inversion lemmas for the `Except`-based pipeline. -/

/-- Inversion of a successful monadic bind over `Except String`: the
first stage produced some intermediate value on which the continuation
succeeded. -/
theorem exc_bind_ok {α β : Type} {step : Except String α}
    {rest : α → Except String β} {out : β} (h : (step >>= rest) = .ok out) :
    ∃ mid, step = .ok mid ∧ rest mid = .ok out := by
  cases step with
  | error msg => simp [Bind.bind, Except.bind] at h
  | ok mid => exact ⟨mid, rfl, by simpa [Bind.bind, Except.bind] using h⟩

/-- A string with a nonempty character list stays nonempty under append. -/
theorem append_ne_empty (a b : String) (ha : a.data ≠ []) : a ++ b ≠ "" := by
  intro h
  apply ha
  have hd : (a ++ b).data = a.data ++ b.data := String.data_append a b
  rw [h] at hd
  exact (List.append_eq_nil.mp hd.symm).1

/-- Amount selector on instructions: the amount of a transfer, nothing
for the other instruction kinds. -/
def instrTransferAmount : Instr → Option Int
  | .transferChecked _ _ _ _ amount _ => some amount
  | _ => none

/-- C1: for every payment requirement and every amount string that
converts (via the code's `BigInt` conversion) to an integer n ≥ 1, a
compiled transaction contains exactly one transfer instruction and its
amount is n, taken verbatim from the requirement's `maxAmountRequired`;
`buildTx` takes neither the caller's side nor slippage as input, so the
amount cannot depend on them. -/
theorem c1_transfer_amount_verbatim (env : Env) (voterPubkey : String)
    (req : Requirement) (mint : String) (n : Int)
    (hAmt : jsBigInt req.maxAmountRequired = .ok n) (hPos : 1 ≤ n)
    (tx : CompiledTx) (hok : buildTx env voterPubkey req mint = .ok tx) :
    tx.instructions.filterMap instrTransferAmount = [n] := by
  unfold buildTx at hok
  obtain ⟨u, hu, hok⟩ := exc_bind_ok hok
  obtain ⟨mp, hmp, hok⟩ := exc_bind_ok hok
  obtain ⟨dec, hdec, hok⟩ := exc_bind_ok hok
  rcases hfp : jsTruthyStr (req.extra.bind Extra.feePayer) with _ | fp <;> rw [hfp] at hok
  · cases hok
  obtain ⟨fpk, hfpk, hok⟩ := exc_bind_ok hok
  obtain ⟨dpk, hdpk, hok⟩ := exc_bind_ok hok
  obtain ⟨ua, hua, hok⟩ := exc_bind_ok hok
  obtain ⟨da, hda, hok⟩ := exc_bind_ok hok
  obtain ⟨ex, hex, hok⟩ := exc_bind_ok hok
  obtain ⟨amt, hamt, hok⟩ := exc_bind_ok hok
  obtain ⟨bh, hbh, hok⟩ := exc_bind_ok hok
  cases hok
  rw [hAmt] at hamt
  cases hamt
  cases ex <;> simp [instrTransferAmount]

/-- C5: under a requirement whose preceding build steps succeed, a
missing (or empty) fee payer in the extension map makes `buildTx` fail
with the missing-fee-payer error before any transaction value is
produced; and when a fee payer is present, every transaction `buildTx`
compiles has exactly that fee payer, and contains the
destination-account creation instruction, funded by that fee payer,
exactly when the ledger reports the destination account absent, placed
before the transfer instruction. -/
theorem c5_fee_payer_and_account_creation (env : Env) (voter : String)
    (req : Requirement) (mint : String)
    (hrpc : ∃ u, getSolanaRpcUrl req.network = .ok u)
    (hmv : env.pubkeyValid mint = true)
    (hmint : ∃ d, env.getMint mint = .ok d) :
    (jsTruthyStr (req.extra.bind Extra.feePayer) = none →
      buildTx env voter req mint = .error "Payment requirements do not include a fee payer") ∧
    (∀ f tx, jsTruthyStr (req.extra.bind Extra.feePayer) = some f →
      buildTx env voter req mint = .ok tx →
      tx.feePayer = f ∧
      ∃ userAta destAta exists_ amount dec bh,
        env.ata mint voter = .ok userAta ∧
        env.ata mint req.payTo = .ok destAta ∧
        env.accountExists destAta = .ok exists_ ∧
        env.getMint mint = .ok dec ∧
        env.getLatestBlockhash = .ok bh ∧
        jsBigInt req.maxAmountRequired = .ok amount ∧
        tx = { feePayer := f
               recentBlockhash := bh
               instructions :=
                 [Instr.setComputeUnitLimit 100000, Instr.setComputeUnitPrice 1] ++
                   (if exists_ then [] else [Instr.createATA f destAta req.payTo mint]) ++
                   [Instr.transferChecked userAta mint destAta voter amount dec] }) := by
  obtain ⟨u, hu⟩ := hrpc
  obtain ⟨d0, hd0⟩ := hmint
  constructor
  · intro hnone
    simp [buildTx, hu, parsePubkey, hmv, hd0, hnone, Bind.bind, Except.bind]
  · intro f tx hsome hok
    unfold buildTx at hok
    obtain ⟨u1, hu1, hok⟩ := exc_bind_ok hok
    obtain ⟨mp, hmp, hok⟩ := exc_bind_ok hok
    obtain ⟨dec, hdec, hok⟩ := exc_bind_ok hok
    rw [hsome] at hok
    obtain ⟨fpk, hfpk, hok⟩ := exc_bind_ok hok
    obtain ⟨dpk, hdpk, hok⟩ := exc_bind_ok hok
    obtain ⟨ua, hua, hok⟩ := exc_bind_ok hok
    obtain ⟨da, hda, hok⟩ := exc_bind_ok hok
    obtain ⟨ex, hex, hok⟩ := exc_bind_ok hok
    obtain ⟨amt, hamt, hok⟩ := exc_bind_ok hok
    obtain ⟨bh, hbh, hok⟩ := exc_bind_ok hok
    cases hok
    unfold parsePubkey at hmp hfpk hdpk
    have hmpe : mp = mint := by
      by_cases h : env.pubkeyValid mint = true <;> simp [h] at hmp <;> exact hmp.symm
    have hfpe : fpk = f := by
      by_cases h : env.pubkeyValid f = true <;> simp [h] at hfpk <;> exact hfpk.symm
    have hdpe : dpk = req.payTo := by
      by_cases h : env.pubkeyValid req.payTo = true <;> simp [h] at hdpk <;> exact hdpk.symm
    subst hmpe hfpe hdpe
    exact ⟨rfl, ua, da, ex, amt, dec, bh, hua, hda, hex, hdec, hbh, hamt, rfl⟩

/-! Concrete fixtures used by witnesses and counterexamples. -/

/-- A supported payment requirement as the live server issues it. -/
def wReq : Requirement :=
  { scheme := "solana", network := some "solana-devnet", payTo := "dest",
    asset := some "mint", maxAmountRequired := "10500000",
    extra := some { feePayer := some "fp" } }

/-- An unsupported first requirement (non-Solana scheme and network). -/
def wReqBad : Requirement :=
  { scheme := "bitcoin", network := some "bitcoin-mainnet", payTo := "dest",
    asset := some "mint", maxAmountRequired := "10500000",
    extra := some { feePayer := some "fp" } }

/-- The supported requirement with no extension map at all. -/
def wReqNoFee : Requirement :=
  { scheme := "solana", network := some "solana-devnet", payTo := "dest",
    asset := some "mint", maxAmountRequired := "10500000", extra := none }

/-- A 402 challenge offering the supported requirement. -/
def wInit : InitResp :=
  { status := 402, bodyText := .ok "",
    x402 := .ok { x402Version := some "1", accepts := some [wReq] } }

/-- A successful submission body whose reported slippage is zero. -/
def wRaw : RawResult :=
  { vote_id := some "v1", actual_slippage := some 0,
    amount_paid_usdc_base_units := none, quoted_amount_usdc_base_units := none }

/-- A 200 submission response carrying `wRaw`. -/
def wSubmit : SubmitResp := { status := 200, bodyText := .ok "", result := .ok wRaw }

/-- An environment on which the whole vote pipeline succeeds. -/
def wEnv : Env :=
  { decodeKey := fun _ => .ok "voter"
    pubkeyValid := fun _ => true
    initial := .ok wInit
    getMint := fun _ => .ok 6
    ata := fun m o => .ok (m ++ ":" ++ o)
    accountExists := fun _ => .ok true
    getLatestBlockhash := .ok "bh"
    submit := fun _ => .ok wSubmit }

/-- Concrete caller parameters. -/
def wParams : VoteParams := { pollId := "poll1", side := "yes", walletPrivateKey := "k" }

/-- The transaction `buildTx` compiles on `wEnv` for `wReq`. -/
def wTx : CompiledTx :=
  { feePayer := "fp", recentBlockhash := "bh",
    instructions := [.setComputeUnitLimit 100000, .setComputeUnitPrice 1,
      .transferChecked "mint:voter" "mint" "mint:dest" "voter" 10500000 6] }

/-- C1 witness: on a concrete environment and the live-shaped requirement
for 10,500,000 base units, the compiled transaction's only transfer
amount is exactly 10,500,000. -/
theorem c1_transfer_amount_verbatim_witness :
    wTx.instructions.filterMap instrTransferAmount = [(10500000 : Int)] :=
  c1_transfer_amount_verbatim wEnv "voter" wReq "mint" 10500000 rfl (by decide) wTx rfl

/-- C5 witness: on the concrete environment the compiled transaction's
fee payer is the requirement's `extra.feePayer`, and with the extension
map absent the build fails with the missing-fee-payer error. -/
theorem c5_fee_payer_and_account_creation_witness :
    wTx.feePayer = "fp" ∧
    buildTx wEnv "voter" wReqNoFee "mint" =
      .error "Payment requirements do not include a fee payer" :=
  ⟨((c5_fee_payer_and_account_creation wEnv "voter" wReq "mint"
      ⟨"https://api.devnet.solana.com", rfl⟩ rfl ⟨6, rfl⟩).2 "fp" wTx rfl rfl).1,
    (c5_fee_payer_and_account_creation wEnv "voter" wReqNoFee "mint"
      ⟨"https://api.devnet.solana.com", rfl⟩ rfl ⟨6, rfl⟩).1 rfl⟩

/-- A 402 challenge whose accepts list has the unsupported requirement
first and the supported one second. -/
def wInitBadFirst : InitResp :=
  { status := 402, bodyText := .ok "",
    x402 := .ok { x402Version := some "1", accepts := some [wReqBad, wReq] } }

/-- The environment serving the two-element challenge. -/
def wEnvBadFirst : Env := { wEnv with initial := .ok wInitBadFirst }

/-- C2 counterexample: with the challenge offering an unsupported first
requirement followed by a supported one, the vote fails (unsupported
scheme), although the later element is supported and the identical
environment with that element first succeeds — so negotiation does not
select the first *supported* element of the list. -/
theorem c2_first_supported_selection_counterexample :
    (executeVote wEnvBadFirst wParams).success = false ∧
    isSolanaPayment wReq = true ∧
    (executeVote wEnv wParams).success = true :=
  ⟨rfl, rfl, rfl⟩

/-- C2 (amended): negotiation inspects only the first element of the
accepts list: when that element is unsupported it fails closed with the
unsupported-scheme error even if a later element is supported, and any
successfully selected requirement is that first element. -/
theorem c2_first_element_only (env : Env) (pollId : String) (resp : InitResp)
    (x : X402Response) (req : Requirement) (rest : List Requirement)
    (hinit : env.initial = .ok resp) (h402 : resp.status = 402)
    (hx : resp.x402 = .ok x) (hacc : x.accepts = some (req :: rest)) :
    (isSolanaPayment req = false →
      negotiate env pollId = .error ("Unsupported payment scheme: " ++ req.scheme ++
        ". Full requirement: " ++ stringifyRequirement req)) ∧
    (∀ out, negotiate env pollId = .ok out → out.requirement = req) := by
  constructor
  · intro hns
    simp [negotiate, hinit, h402, parse402, hx, hacc, hns, Bind.bind, Except.bind]
  · intro out hout
    simp [negotiate, hinit, h402, parse402, hx, hacc, Bind.bind, Except.bind] at hout
    by_cases hs : isSolanaPayment req = true
    · rw [if_pos hs] at hout
      rcases ht : jsTruthyStr req.asset with _ | m <;> rw [ht] at hout
      · cases hout
      · cases hout
        rfl
    · rw [if_neg hs] at hout
      cases hout

/-- C2 (amended) witness: at the concrete two-element challenge with the
unsupported requirement first, negotiation fails with the
unsupported-scheme error. -/
theorem c2_first_element_only_witness :
    negotiate wEnvBadFirst "poll1" =
      .error ("Unsupported payment scheme: " ++ wReqBad.scheme ++
        ". Full requirement: " ++ stringifyRequirement wReqBad) :=
  (c2_first_element_only wEnvBadFirst "poll1" wInitBadFirst
    { x402Version := some "1", accepts := some [wReqBad, wReq] }
    wReqBad [wReq] rfl rfl rfl rfl).1 rfl

/-- A 402 challenge with an empty accepts list. -/
def wInitEmptyAccepts : InitResp :=
  { status := 402, bodyText := .ok "",
    x402 := .ok { x402Version := some "1", accepts := some [] } }

/-- C6: interpretation of the initial vote request's status code, for
every environment (in particular for every behaviour of the proof
submission, which is therefore never reached): 400 yields the
invalid-request failure carrying the body's error detail, 403 the
duplicate-vote failure, 404 the poll-not-found failure naming the poll,
any other non-402 status the unexpected-status failure naming the code,
and 402 proceeds to parsing the challenge body. -/
theorem c6_initial_status_interpretation (env : Env) (p : VoteParams)
    (voter : String) (resp : InitResp)
    (hdec : env.decodeKey p.walletPrivateKey = .ok voter)
    (hinit : env.initial = .ok resp) :
    (resp.status = 400 → ∀ d, resp.bodyText = .ok d →
      executeVote env p =
        { success := false, error := some ("Invalid vote request: " ++ d) }) ∧
    (resp.status = 403 →
      executeVote env p =
        { success := false,
          error := some "Duplicate vote: You have already voted on this poll" }) ∧
    (resp.status = 404 →
      executeVote env p =
        { success := false, error := some ("Poll not found: " ++ p.pollId) }) ∧
    (resp.status ≠ 400 → resp.status ≠ 402 → resp.status ≠ 403 → resp.status ≠ 404 →
      executeVote env p =
        { success := false,
          error := some ("Expected 402 Payment Required, got " ++ toString resp.status) }) ∧
    (resp.status = 402 →
      executeVoteE env p =
        (parse402 resp >>= fun neg =>
          buildTx env voter neg.requirement neg.tokenMint >>= fun tx =>
            submitAndParse env (mkPaymentPayload neg (signTx tx voter)))) := by
  refine ⟨?_, ?_, ?_, ?_, ?_⟩
  · intro h400 d hd
    have hne := append_ne_empty "Invalid vote request: " d (by decide)
    simp [executeVote, executeVoteE, negotiate, hdec, hinit, h400, hd, hne,
      Bind.bind, Except.bind]
  · intro h403
    simp [executeVote, executeVoteE, negotiate, hdec, hinit, h403,
      Bind.bind, Except.bind]
  · intro h404
    have hne := append_ne_empty "Poll not found: " p.pollId (by decide)
    simp [executeVote, executeVoteE, negotiate, hdec, hinit, h404, hne,
      Bind.bind, Except.bind]
  · intro h400 h402 h403 h404
    have hne := append_ne_empty "Expected 402 Payment Required, got "
      (toString resp.status) (by decide)
    simp [executeVote, executeVoteE, negotiate, hdec, hinit, h400, h402, h403, h404, hne,
      Bind.bind, Except.bind]
  · intro h402
    simp [executeVoteE, negotiate, hdec, hinit, h402, Bind.bind, Except.bind]

/-- C6 witness: on a concrete environment answering 404, the vote fails
with the poll-not-found message. -/
theorem c6_initial_status_interpretation_witness :
    executeVote { wEnv with initial := .ok { status := 404 } } wParams =
      { success := false, error := some ("Poll not found: " ++ "poll1") } :=
  (c6_initial_status_interpretation { wEnv with initial := .ok { status := 404 } }
    wParams "voter" { status := 404 } rfl rfl).2.2.1 rfl

/-- C7: a 402 challenge whose accepts list is missing or empty always
yields the no-accepted-payment-method failure, for every environment (so
no requirement is selected and no build, signing or submission behaviour
can influence the outcome). -/
theorem c7_empty_accepts_fails_closed (env : Env) (p : VoteParams)
    (voter : String) (resp : InitResp) (x : X402Response)
    (hdec : env.decodeKey p.walletPrivateKey = .ok voter)
    (hinit : env.initial = .ok resp) (h402 : resp.status = 402)
    (hx : resp.x402 = .ok x)
    (hacc : x.accepts = none ∨ x.accepts = some []) :
    executeVote env p =
      { success := false, error := some "No payment methods accepted in x402 response" } := by
  rcases hacc with h | h <;>
    simp [executeVote, executeVoteE, negotiate, parse402, hdec, hinit, h402, hx, h,
      Bind.bind, Except.bind]

/-- C7 witness: a concrete 402 challenge with an empty accepts list
yields the no-accepted-payment-method failure. -/
theorem c7_empty_accepts_fails_closed_witness :
    executeVote { wEnv with initial := .ok wInitEmptyAccepts } wParams =
      { success := false, error := some "No payment methods accepted in x402 response" } :=
  c7_empty_accepts_fails_closed { wEnv with initial := .ok wInitEmptyAccepts } wParams
    "voter" wInitEmptyAccepts { x402Version := some "1", accepts := some [] }
    rfl rfl rfl rfl (Or.inr rfl)

/-- Any value `submitAndParse` returns successfully is a success record
with no error field. -/
theorem submitAndParse_ok_success (env : Env) (pl : PaymentPayload) (r : VoteResult)
    (h : submitAndParse env pl = .ok r) : r.success = true ∧ r.error = none := by
  unfold submitAndParse at h
  obtain ⟨resp, hs, hf⟩ := exc_bind_ok h
  split at hf
  · obtain ⟨raw, hr, hpure⟩ := exc_bind_ok hf
    cases hpure
    exact ⟨rfl, rfl⟩
  · split at hf
    · cases hf
    · obtain ⟨d, hd, habs⟩ := exc_bind_ok hf
      cases habs

/-- Any value `executeVoteE` returns successfully is a success record
with no error field. -/
theorem executeVoteE_ok_success (env : Env) (p : VoteParams) (r : VoteResult)
    (h : executeVoteE env p = .ok r) : r.success = true ∧ r.error = none := by
  unfold executeVoteE at h
  obtain ⟨voter, hv, h⟩ := exc_bind_ok h
  obtain ⟨neg, hn, h⟩ := exc_bind_ok h
  obtain ⟨tx, ht, h⟩ := exc_bind_ok h
  exact submitAndParse_ok_success env _ r h

/-- C3: for every environment behaviour (any step may return anything or
throw) and every caller input, `executeVote` returns a `VoteResult`
value: either a success record, or a failure record whose error reason is
a non-empty string; no exception escapes the try/catch. -/
theorem c3_total_normalized_result (env : Env) (p : VoteParams) :
    (executeVote env p).success = true ∨
    ((executeVote env p).success = false ∧
      ∃ m, (executeVote env p).error = some m ∧ m ≠ "") := by
  unfold executeVote
  cases h : executeVoteE env p with
  | ok r =>
    simpa using Or.inl (executeVoteE_ok_success env p r h).1
  | error e =>
    right
    refine ⟨rfl, if e = "" then "Unknown error during vote execution" else e, rfl, ?_⟩
    by_cases he : e = "" <;> simp [he]

/-- The environment whose proof submission throws a transport error, all
earlier steps succeeding. -/
def wEnvSubmitTimeout : Env := { wEnv with submit := fun _ => .error "connect ETIMEDOUT" }

/-- The environment whose key decoding throws the same message before any
network step. -/
def wEnvPreFail : Env := { wEnv with decodeKey := fun _ => .error "connect ETIMEDOUT" }

/-- C4 counterexample: a transport failure during proof submission (after
negotiation, build and signing succeeded) produces exactly the same
caller-visible failure value as a pre-transfer failure with the same
message — there is no distinct submission-outcome-unknown condition. -/
theorem c4_submission_timeout_counterexample :
    executeVote wEnvSubmitTimeout wParams =
      { success := false, error := some "connect ETIMEDOUT" } ∧
    executeVote wEnvPreFail wParams =
      { success := false, error := some "connect ETIMEDOUT" } :=
  ⟨rfl, rfl⟩

/-- C4 (amended): when negotiation, build and signing succeeded and the
proof-submission request throws, the outcome is never a success: it is
the generic failure value carrying the thrown message (or the generic
fallback for an empty message), the same shape as every pre-transfer
failure — no distinct submission-outcome-unknown condition exists. -/
theorem c4_submission_failure_generic (env : Env) (p : VoteParams)
    (voter : String) (neg : NegotiationOk) (tx : CompiledTx) (msg : String)
    (hdec : env.decodeKey p.walletPrivateKey = .ok voter)
    (hneg : negotiate env p.pollId = .ok neg)
    (hbuild : buildTx env voter neg.requirement neg.tokenMint = .ok tx)
    (hsub : env.submit (mkPaymentPayload neg (signTx tx voter)) = .error msg) :
    executeVote env p =
      { success := false,
        error := some (if msg = "" then "Unknown error during vote execution" else msg) } := by
  simp [executeVote, executeVoteE, submitAndParse, hdec, hneg, hbuild, hsub,
    Bind.bind, Except.bind]

/-- C4 (amended) witness: the concrete submission-timeout environment
yields the generic failure carrying the transport error message. -/
theorem c4_submission_failure_generic_witness :
    executeVote wEnvSubmitTimeout wParams =
      { success := false,
        error := some (if "connect ETIMEDOUT" = "" then
          "Unknown error during vote execution" else "connect ETIMEDOUT") } :=
  c4_submission_failure_generic wEnvSubmitTimeout wParams "voter"
    { x402Version := some "1", requirement := wReq, tokenMint := "mint" }
    wTx "connect ETIMEDOUT" rfl rfl rfl rfl

/-- A 409 submission response carrying a payout-shaped body. -/
def wSubmit409 : SubmitResp :=
  { status := 409, bodyText := .ok "irrelevant", result := .ok wRaw }

/-- An environment whose proof submission answers 409 with a
payout-shaped body. -/
def wEnv409 : Env := { wEnv with submit := fun _ => .ok wSubmit409 }

/-- C8: interpretation of the proof-submission response.  A 409 always
yields the slippage-exceeded failure, whatever the response body holds
(the body is not even read); a 2xx whose body parses is returned as the
success result; any other status yields the vote-rejected failure
carrying the body's error detail; and with a 409-answering submission the
caller can never observe a success outcome. -/
theorem c8_submission_status_interpretation (env : Env) (pl : PaymentPayload)
    (resp : SubmitResp) (hsub : env.submit pl = .ok resp) :
    (resp.status = 409 →
      submitAndParse env pl =
        .error "Slippage exceeded: Entry fee changed too much. Try again with higher slippage.") ∧
    (200 ≤ resp.status ∧ resp.status < 300 → ∀ r, resp.result = .ok r →
      submitAndParse env pl = .ok (mkSuccessResult r)) ∧
    (¬(200 ≤ resp.status ∧ resp.status < 300) → resp.status ≠ 409 →
      ∀ d, resp.bodyText = .ok d →
        submitAndParse env pl = .error ("Vote failed: " ++ d)) ∧
    (∀ p : VoteParams, (∀ pl2, env.submit pl2 = .ok resp) → resp.status = 409 →
      (executeVote env p).success = false) := by
  refine ⟨?_, ?_, ?_, ?_⟩
  · intro h409
    simp [submitAndParse, hsub, h409, Bind.bind, Except.bind]
  · intro h2xx r hr
    simp [submitAndParse, hsub, h2xx, hr, Bind.bind, Except.bind]
  · intro h2xx h409 d hd
    simp [submitAndParse, hsub, h2xx, h409, hd, Bind.bind, Except.bind]
  · intro p hall h409
    unfold executeVote
    cases h : executeVoteE env p with
    | error e => simp
    | ok r =>
      unfold executeVoteE at h
      obtain ⟨voter, hv, h⟩ := exc_bind_ok h
      obtain ⟨neg, hn, h⟩ := exc_bind_ok h
      obtain ⟨tx, ht, h⟩ := exc_bind_ok h
      unfold submitAndParse at h
      obtain ⟨resp2, hs2, hf⟩ := exc_bind_ok h
      rw [hall _] at hs2
      cases hs2
      rw [h409] at hf
      simp [Bind.bind, Except.bind] at hf

/-- C8 witness: a concrete 409-answering environment: the submission
stage yields the slippage-exceeded failure. -/
theorem c8_submission_status_interpretation_witness :
    submitAndParse wEnv409 (mkPaymentPayload
      { x402Version := some "1", requirement := wReq, tokenMint := "mint" }
      (signTx wTx "voter")) =
      .error "Slippage exceeded: Entry fee changed too much. Try again with higher slippage." :=
  (c8_submission_status_interpretation wEnv409 (mkPaymentPayload
      { x402Version := some "1", requirement := wReq, tokenMint := "mint" }
      (signTx wTx "voter")) wSubmit409 rfl).1 rfl

/-- Concrete tool-handler arguments matching `wParams`. -/
def wArgs : VoteArgs :=
  { poll_id := some "poll1", side := some "yes", wallet_private_key := some "k" }

/-- C9 counterexample: on the concrete successful vote whose raw result
carries `actual_slippage = 0` (present, value zero), the normalized tool
output omits `actual_slippage_percent` entirely instead of reporting 0 —
because 0 is falsy in the handler's conditional. -/
theorem c9_slippage_zero_counterexample :
    executeVote wEnv wParams = mkSuccessResult wRaw ∧
    wRaw.actual_slippage = some 0 ∧
    handleVote wEnv wArgs =
      .ok { success := true, vote_id := some "v1", actual_slippage_percent := none } :=
  ⟨rfl, rfl, rfl⟩

/-- C9 (amended): the success normalizer divides each present, non-empty
base-unit amount string exactly by 1,000,000 (under the exact-arithmetic
model of `parseFloat`), and reports `actual_slippage * 100` whenever
`actual_slippage` is present and non-zero; when its value is exactly 0
the percentage field is omitted. -/
theorem c9_normalizer_amended (v : VoteResult) :
    (∀ s q, v.amount_paid_usdc_base_units = some s → s ≠ "" → jsParseFloat s = some q →
      (normalizeVoteSuccess v).amount_paid_usdc = some (q / 1000000)) ∧
    (∀ s q, v.quoted_amount_usdc_base_units = some s → s ≠ "" → jsParseFloat s = some q →
      (normalizeVoteSuccess v).quoted_amount_usdc = some (q / 1000000)) ∧
    (∀ q, v.actual_slippage = some q → q ≠ 0 →
      (normalizeVoteSuccess v).actual_slippage_percent = some (q * 100)) ∧
    (v.actual_slippage = some 0 →
      (normalizeVoteSuccess v).actual_slippage_percent = none) := by
  refine ⟨?_, ?_, ?_, ?_⟩
  · intro s q hs hne hq
    simp [normalizeVoteSuccess, jsTruthyStr, hs, hne, hq]
  · intro s q hs hne hq
    simp [normalizeVoteSuccess, jsTruthyStr, hs, hne, hq]
  · intro q hq hnz
    simp [normalizeVoteSuccess, hq, hnz]
  · intro hq
    simp [normalizeVoteSuccess, hq]

/-- A successful vote result carrying the spec's worked example:
10,500,000 paid, 10,000,000 quoted, 5% slippage. -/
def wVR : VoteResult :=
  { success := true, vote_id := some "v1",
    amount_paid_usdc_base_units := some "10500000",
    quoted_amount_usdc_base_units := some "10000000",
    actual_slippage := some (1 / 20) }

/-- C9 (amended) witness: the worked example normalizes to
10500000/1000000 (= 10.5), 10000000/1000000 (= 10) and (1/20)*100 (= 5). -/
theorem c9_normalizer_amended_witness :
    (normalizeVoteSuccess wVR).amount_paid_usdc = some ((10500000 : ℚ) / 1000000) ∧
    (normalizeVoteSuccess wVR).quoted_amount_usdc = some ((10000000 : ℚ) / 1000000) ∧
    (normalizeVoteSuccess wVR).actual_slippage_percent = some ((1 / 20 : ℚ) * 100) := by
  have hp1 : jsParseFloat "10500000" = some (10500000 : ℚ) := by
    have h : jsParseFloatParts "10500000" = some (false, 10500000, 0, 0) := rfl
    norm_num [jsParseFloat, h, partsToRat]
  have hp2 : jsParseFloat "10000000" = some (10000000 : ℚ) := by
    have h : jsParseFloatParts "10000000" = some (false, 10000000, 0, 0) := rfl
    norm_num [jsParseFloat, h, partsToRat]
  exact ⟨(c9_normalizer_amended wVR).1 "10500000" 10500000 rfl (by decide) hp1,
    (c9_normalizer_amended wVR).2.1 "10000000" 10000000 rfl (by decide) hp2,
    (c9_normalizer_amended wVR).2.2.1 (1 / 20) rfl (by norm_num)⟩

/-- The `VoteParams` record `handleVote` passes to `executeVote` for
validated arguments (slippage defaulted by nullish coalescing). -/
def paramsOf (args : VoteArgs) (pid side key : String) : VoteParams :=
  { pollId := pid, side := side, walletPrivateKey := key
    slippage := args.slippage.getD (5 / 100) }

/-- C10: at the tool-handler boundary, when the protocol outcome has
`success = false` the handler raises an exception whose message is the
failure's reason (or the text Vote failed when the reason is absent or
empty); a value is returned only for success outcomes. -/
theorem c10_failures_raised (env : Env) (args : VoteArgs) (pid side key : String)
    (hp : jsTruthyStr args.poll_id = some pid)
    (hs : jsTruthyStr args.side = some side)
    (hside : side = "yes" ∨ side = "no")
    (hk : jsTruthyStr args.wallet_private_key = some key) :
    ((executeVote env (paramsOf args pid side key)).success = false →
      handleVote env args = .error
        (match jsTruthyStr (executeVote env (paramsOf args pid side key)).error with
         | some e => e
         | none => "Vote failed")) ∧
    (∀ out, handleVote env args = .ok out →
      (executeVote env (paramsOf args pid side key)).success = true) := by
  have hvalid : ¬(side ≠ "yes" ∧ side ≠ "no") := by
    rcases hside with h | h <;> subst h <;> simp
  constructor
  · intro hfail
    unfold paramsOf at hfail
    simp [handleVote, paramsOf, hp, hs, hk, hvalid, hfail]
  · intro out hout
    by_cases hsucc : (executeVote env (paramsOf args pid side key)).success = true
    · exact hsucc
    · exfalso
      rw [Bool.not_eq_true] at hsucc
      unfold paramsOf at hsucc
      simp [handleVote, hp, hs, hk, hvalid, hsucc] at hout

/-- C10 witness: on the concrete pre-transfer-failure environment the
handler raises the failure's reason as an exception. -/
theorem c10_failures_raised_witness :
    handleVote wEnvPreFail wArgs = .error
      (match jsTruthyStr (executeVote wEnvPreFail (paramsOf wArgs "poll1" "yes" "k")).error with
       | some e => e
       | none => "Vote failed") :=
  (c10_failures_raised wEnvPreFail wArgs "poll1" "yes" "k" rfl rfl (Or.inl rfl) rfl).1 rfl

end Futarchy
